import Mathlib

/-!
Verification of the Mathics built-in elementary transcendental function
library (mathics/builtin/exptrig.py).

The file embeds the declarative data of that module: the per-function
rule tables (pattern, template) pairs, the symbolic-bridge callbacks
(to_sympy), the N[...] precision handlers of the constants Pi and E, and
mathematical models of the mpmath backend primitives invoked by the
numeric callbacks.  Theorems at the end settle the specified properties
of those definitions.
-/

namespace ExpTrig

/-- Mathics expressions: the atoms Integer, Rational, Real and Symbol,
and compound expressions consisting of a head applied to a list of
leaves.  An inexact (machine/arbitrary-precision) Real atom carries its
value as a rational number; exactness is recorded by the constructor, so
the exact integer 0 and the inexact zero 0. are distinct atoms. -/
inductive Expr where
  | int : Int → Expr
  | rat : Int → Int → Expr
  | real : Rat → Expr
  | sym : String → Expr
  | expr : Expr → List Expr → Expr

/-- The leaves of an expression (atoms have none). -/
def Expr.leaves : Expr → List Expr
  | .expr _ ls => ls
  | _ => []

/-- Left patterns of rules: literal atoms, blanks (x_), typed blanks
(x_Integer), named patterns (x:patt), and head applications of fixed
arity one or two, which cover every pattern occurring in the module. -/
inductive Pat where
  | pint : Int → Pat
  | prat : Int → Int → Pat
  | preal : Rat → Pat
  | psym : String → Pat
  | pblank : String → Pat
  | pblankInt : String → Pat
  | pnamed : String → Pat → Pat
  | papp1 : Pat → Pat → Pat
  | papp2 : Pat → Pat → Pat → Pat

/-- Bindings produced by a successful structural match. -/
abbrev Bindings := List (String × Expr)

/-- Structural matching of a pattern against an expression, yielding the
variable bindings on success.  A blank matches any expression, a typed
blank x_Integer only an Integer atom, literal atoms match by equality,
and an application pattern matches an expression with the same arity
whose head and leaves match componentwise. -/
def matchPat : Pat → Expr → Option Bindings
  | .pint n, .int m => if n = m then some [] else none
  | .prat n d, .rat n2 d2 => if n = n2 ∧ d = d2 then some [] else none
  | .preal q, .real q2 => if q = q2 then some [] else none
  | .psym s, .sym s2 => if s = s2 then some [] else none
  | .pblank x, e => some [(x, e)]
  | .pblankInt x, .int m => some [(x, .int m)]
  | .pnamed x p, e => (matchPat p e).map (fun b => (x, e) :: b)
  | .papp1 ph pa, .expr h args =>
      match args with
      | [a] => do
          let b1 ← matchPat ph h
          let b2 ← matchPat pa a
          pure (b1 ++ b2)
      | _ => none
  | .papp2 ph pa pb, .expr h args =>
      match args with
      | [a, b] => do
          let b1 ← matchPat ph h
          let b2 ← matchPat pa a
          let b3 ← matchPat pb b
          pure (b1 ++ b2 ++ b3)
      | _ => none
  | _, _ => none

/-- Right templates of rules: literal atoms, pattern-variable references,
the anonymous-function slot form used by derivative templates, and
head applications of arity one to three. -/
inductive Tmpl where
  | tint : Int → Tmpl
  | trat : Int → Int → Tmpl
  | tsym : String → Tmpl
  | tvar : String → Tmpl
  | tslot : Tmpl
  | tfun : Tmpl → Tmpl
  | tapp1 : Tmpl → Tmpl → Tmpl
  | tapp2 : Tmpl → Tmpl → Tmpl → Tmpl
  | tapp3 : Tmpl → Tmpl → Tmpl → Tmpl → Tmpl

/-- Instantiate a template with the bindings of a match.  A variable
reference that has no binding yields no result. -/
def substTmpl : Tmpl → Bindings → Option Expr
  | .tint n, _ => some (.int n)
  | .trat n d, _ => some (.rat n d)
  | .tsym s, _ => some (.sym s)
  | .tvar x, b => b.lookup x
  | .tslot, _ => some (.expr (.sym "Slot") [.int 1])
  | .tfun t, b => (substTmpl t b).map (fun e => .expr (.sym "Function") [e])
  | .tapp1 h a, b => do
      pure (.expr (← substTmpl h b) [← substTmpl a b])
  | .tapp2 h a c, b => do
      pure (.expr (← substTmpl h b) [← substTmpl a b, ← substTmpl c b])
  | .tapp3 h a c d, b => do
      pure (.expr (← substTmpl h b) [← substTmpl a b, ← substTmpl c b, ← substTmpl d b])

/-- A rule is a (LeftPattern, RightTemplate) pair. -/
abbrev Rule := Pat × Tmpl

/-- Try the rules of a table in order; the first structural match wins
and its template is instantiated with the resulting bindings.  When no
rule matches, the result is none and the expression is left to the
numeric path or stays unevaluated. -/
def applyRules : List Rule → Expr → Option Expr
  | [], _ => none
  | (p, t) :: rest, e =>
      match matchPat p e with
      | some b => substTmpl t b
      | none => applyRules rest e

/-- The pattern of a derivative rule: Derivative[1][f]. -/
def derivPat (f : String) : Pat :=
  .papp1 (.papp1 (.psym "Derivative") (.pint 1)) (.psym f)

/-- Rule table of Log (class Log). -/
def Log.rules : List Rule :=
  [ (.papp2 (.psym "Log") (.pblank "b") (.pblank "z"),
      .tapp2 (.tsym "Times") (.tapp1 (.tsym "Log") (.tvar "z"))
        (.tapp2 (.tsym "Power") (.tapp1 (.tsym "Log") (.tvar "b")) (.tint (-1)))),
    (.papp1 (.psym "Log") (.preal 0), .tsym "Indeterminate"),
    (.papp1 (.psym "Log") (.pint 0), .tapp1 (.tsym "DirectedInfinity") (.tint (-1))),
    (.papp1 (.psym "Log") (.pint 1), .tint 0),
    (.papp1 (.psym "Log") (.psym "E"), .tint 1),
    (.papp1 (.psym "Log") (.papp2 (.psym "Power") (.psym "E") (.pblankInt "x")),
      .tvar "x"),
    (derivPat "Log",
      .tfun (.tapp2 (.tsym "Times") (.tint 1) (.tapp2 (.tsym "Power") .tslot (.tint (-1))))) ]

/-- Rule table of Sin (class Sin). -/
def Sin.rules : List Rule :=
  [ (.papp1 (.psym "Sin") (.psym "Pi"), .tint 0),
    (.papp1 (.psym "Sin") (.papp2 (.psym "Times") (.pblankInt "n") (.psym "Pi")),
      .tint 0),
    (.papp1 (.psym "Sin") (.papp2 (.psym "Times") (.prat 1 2) (.psym "Pi")),
      .tint 1),
    (.papp1 (.psym "Sin") (.pint 0), .tint 0),
    (derivPat "Sin", .tfun (.tapp1 (.tsym "Cos") .tslot)) ]

/-- Rule table of Cos (class Cos). -/
def Cos.rules : List Rule :=
  [ (.papp1 (.psym "Cos") (.psym "Pi"), .tint (-1)),
    (.papp1 (.psym "Cos") (.papp2 (.psym "Times") (.pblankInt "n") (.psym "Pi")),
      .tapp2 (.tsym "Power") (.tint (-1)) (.tvar "n")),
    (.papp1 (.psym "Cos") (.papp2 (.psym "Times") (.prat 1 2) (.psym "Pi")),
      .tint 0),
    (.papp1 (.psym "Cos") (.pint 0), .tint 1),
    (derivPat "Cos",
      .tfun (.tapp2 (.tsym "Times") (.tint (-1)) (.tapp1 (.tsym "Sin") .tslot))) ]

/-- Rule table of Tan (class Tan). -/
def Tan.rules : List Rule :=
  [ (.papp1 (.psym "Tan") (.papp2 (.psym "Times") (.prat 1 2) (.psym "Pi")),
      .tsym "ComplexInfinity"),
    (.papp1 (.psym "Tan") (.pint 0), .tint 0),
    (derivPat "Tan",
      .tfun (.tapp2 (.tsym "Power") (.tapp1 (.tsym "Sec") .tslot) (.tint 2))) ]

/-- Rule table of Sec (class Sec). -/
def Sec.rules : List Rule :=
  [ (derivPat "Sec",
      .tfun (.tapp2 (.tsym "Times") (.tapp1 (.tsym "Sec") .tslot)
        (.tapp1 (.tsym "Tan") .tslot))),
    (.papp1 (.psym "Sec") (.pint 0), .tint 1) ]

/-- Rule table of Csc (class Csc). -/
def Csc.rules : List Rule :=
  [ (derivPat "Csc",
      .tfun (.tapp3 (.tsym "Times") (.tint (-1)) (.tapp1 (.tsym "Cot") .tslot)
        (.tapp1 (.tsym "Csc") .tslot))),
    (.papp1 (.psym "Csc") (.pint 0), .tsym "ComplexInfinity") ]

/-- Rule table of Cot (class Cot). -/
def Cot.rules : List Rule :=
  [ (derivPat "Cot",
      .tfun (.tapp2 (.tsym "Times") (.tint (-1))
        (.tapp2 (.tsym "Power") (.tapp1 (.tsym "Csc") .tslot) (.tint 2)))),
    (.papp1 (.psym "Cot") (.pint 0), .tsym "ComplexInfinity") ]

/-- Rule table of Sinh (class Sinh): only a derivative rule. -/
def Sinh.rules : List Rule :=
  [ (derivPat "Sinh", .tfun (.tapp1 (.tsym "Cosh") .tslot)) ]

/-- Rule table of Cosh (class Cosh): only a derivative rule. -/
def Cosh.rules : List Rule :=
  [ (derivPat "Cosh", .tfun (.tapp1 (.tsym "Sinh") .tslot)) ]

/-- Rule table of Tanh (class Tanh): only a derivative rule. -/
def Tanh.rules : List Rule :=
  [ (derivPat "Tanh",
      .tfun (.tapp2 (.tsym "Power") (.tapp1 (.tsym "Sech") .tslot) (.tint 2))) ]

/-- Rule table of Csch (class Csch). -/
def Csch.rules : List Rule :=
  [ (.papp1 (.psym "Csch") (.pint 0), .tsym "ComplexInfinity"),
    (.papp1 (.psym "Csch") (.preal 0), .tsym "ComplexInfinity"),
    (derivPat "Csch",
      .tfun (.tapp3 (.tsym "Times") (.tint (-1)) (.tapp1 (.tsym "Coth") .tslot)
        (.tapp1 (.tsym "Csch") .tslot))) ]

/-- Rule table of Coth (class Coth). -/
def Coth.rules : List Rule :=
  [ (.papp1 (.psym "Coth") (.pint 0), .tsym "ComplexInfinity"),
    (.papp1 (.psym "Coth") (.preal 0), .tsym "ComplexInfinity"),
    (derivPat "Coth",
      .tfun (.tapp2 (.tsym "Times") (.tint (-1))
        (.tapp2 (.tsym "Power") (.tapp1 (.tsym "Csch") .tslot) (.tint 2)))) ]

/-- Rule table of ArcCosh (class ArcCosh). -/
def ArcCosh.rules : List Rule :=
  [ (.papp1 (.psym "ArcCosh") (.pnamed "z" (.preal 0)),
      .tapp2 (.tsym "N")
        (.tapp3 (.tsym "Times") (.trat 1 2) (.tsym "I") (.tsym "Pi"))
        (.tapp1 (.tsym "Precision") (.tvar "z"))),
    (derivPat "ArcCosh",
      .tfun (.tapp2 (.tsym "Power")
        (.tapp2 (.tsym "Times")
          (.tapp1 (.tsym "Sqrt") (.tapp2 (.tsym "Plus") .tslot (.tint (-1))))
          (.tapp1 (.tsym "Sqrt") (.tapp2 (.tsym "Plus") .tslot (.tint 1))))
        (.tint (-1)))) ]

/-- Rule table of ArcTanh (class ArcTanh): only a derivative rule. -/
def ArcTanh.rules : List Rule :=
  [ (derivPat "ArcTanh",
      .tfun (.tapp2 (.tsym "Power")
        (.tapp2 (.tsym "Plus") (.tint 1)
          (.tapp2 (.tsym "Times") (.tint (-1)) (.tapp2 (.tsym "Power") .tslot (.tint 2))))
        (.tint (-1)))) ]

/-- Rule table of ArcSech (class ArcSech). -/
def ArcSech.rules : List Rule :=
  [ (.papp1 (.psym "ArcSech") (.pint 0), .tsym "Infinity"),
    (.papp1 (.psym "ArcSech") (.preal 0), .tsym "Indeterminate"),
    (derivPat "ArcSech",
      .tfun (.tapp2 (.tsym "Times") (.tint (-1))
        (.tapp2 (.tsym "Power")
          (.tapp3 (.tsym "Times") .tslot
            (.tapp1 (.tsym "Sqrt")
              (.tapp2 (.tsym "Times")
                (.tapp2 (.tsym "Plus") (.tint 1) (.tapp2 (.tsym "Times") (.tint (-1)) .tslot))
                (.tapp2 (.tsym "Power") (.tapp2 (.tsym "Plus") (.tint 1) .tslot) (.tint (-1)))))
            (.tapp2 (.tsym "Plus") (.tint 1) .tslot))
          (.tint (-1))))) ]

/-- Rule table of ArcCsch (class ArcCsch). -/
def ArcCsch.rules : List Rule :=
  [ (.papp1 (.psym "ArcCsch") (.pint 0), .tsym "ComplexInfinity"),
    (.papp1 (.psym "ArcCsch") (.preal 0), .tsym "ComplexInfinity"),
    (derivPat "ArcCsch",
      .tfun (.tapp2 (.tsym "Times") (.tint (-1))
        (.tapp2 (.tsym "Power")
          (.tapp2 (.tsym "Times")
            (.tapp1 (.tsym "Sqrt")
              (.tapp2 (.tsym "Plus") (.tint 1)
                (.tapp2 (.tsym "Power") (.tapp2 (.tsym "Power") .tslot (.tint 2)) (.tint (-1)))))
            (.tapp2 (.tsym "Power") .tslot (.tint 2)))
          (.tint (-1))))) ]

/-- Symbolic bridge of Sec (Sec.to_sympy): only for a single-argument
call, secant becomes the reciprocal power of cosine; otherwise there is
no bridge. -/
def Sec.to_sympy (e : Expr) : Option Expr :=
  match e.leaves with
  | [a] => some (.expr (.sym "Power") [.expr (.sym "Cos") [a], .int (-1)])
  | _ => none

/-- Symbolic bridge of Csc (Csc.to_sympy). -/
def Csc.to_sympy (e : Expr) : Option Expr :=
  match e.leaves with
  | [a] => some (.expr (.sym "Power") [.expr (.sym "Sin") [a], .int (-1)])
  | _ => none

/-- Symbolic bridge of Sech (Sech.to_sympy). -/
def Sech.to_sympy (e : Expr) : Option Expr :=
  match e.leaves with
  | [a] => some (.expr (.sym "Power") [.expr (.sym "Cosh") [a], .int (-1)])
  | _ => none

/-- Symbolic bridge of Csch (Csch.to_sympy). -/
def Csch.to_sympy (e : Expr) : Option Expr :=
  match e.leaves with
  | [a] => some (.expr (.sym "Power") [.expr (.sym "Sinh") [a], .int (-1)])
  | _ => none

/-- Symbolic bridge of ArcSec (ArcSec.to_sympy). -/
def ArcSec.to_sympy (e : Expr) : Option Expr :=
  match e.leaves with
  | [a] => some (.expr (.sym "ArcCos") [.expr (.sym "Power") [a, .int (-1)]])
  | _ => none

/-- Symbolic bridge of ArcCsc (ArcCsc.to_sympy). -/
def ArcCsc.to_sympy (e : Expr) : Option Expr :=
  match e.leaves with
  | [a] => some (.expr (.sym "ArcSin") [.expr (.sym "Power") [a, .int (-1)]])
  | _ => none

/-- Symbolic bridge of ArcSech (ArcSech.to_sympy). -/
def ArcSech.to_sympy (e : Expr) : Option Expr :=
  match e.leaves with
  | [a] => some (.expr (.sym "ArcCosh") [.expr (.sym "Power") [a, .int (-1)]])
  | _ => none

/-- Symbolic bridge of ArcCsch (ArcCsch.to_sympy). -/
def ArcCsch.to_sympy (e : Expr) : Option Expr :=
  match e.leaves with
  | [a] => some (.expr (.sym "ArcSinh") [.expr (.sym "Power") [a, .int (-1)]])
  | _ => none

/-- Pi.apply_N: the handler of N[Pi, prec].  get_precision and the
backend value of pi at a given working precision are external
collaborators, so the handler is parameterised over them.  When
get_precision yields no value the handler returns no result (the Python
method falls off the end and returns None), so the call stays
unevaluated; otherwise it returns the backend real. -/
def Pi.apply_N (get_precision : Expr → Option Nat) (backendPi : Nat → Expr)
    (prec : Expr) : Option Expr :=
  match get_precision prec with
  | some p => some (backendPi p)
  | none => none

/-- E.apply_N: the handler of N[E, prec], same shape as Pi.apply_N. -/
def E.apply_N (get_precision : Expr → Option Nat) (backendE : Nat → Expr)
    (prec : Expr) : Option Expr :=
  match get_precision prec with
  | some p => some (backendE p)
  | none => none

/-- Model of the backend primitive mpmath.atanh on complex arguments:
the principal branch of the inverse hyperbolic tangent,
atanh z = (log (1 + z) - log (1 - z)) / 2. -/
noncomputable def mpmath_atanh (z : ℂ) : ℂ :=
  (Complex.log (1 + z) - Complex.log (1 - z)) / 2

/-- Model of the backend primitive mpmath.acoth on complex arguments:
acoth z = atanh (1 / z). -/
noncomputable def mpmath_acoth (z : ℂ) : ℂ :=
  mpmath_atanh z⁻¹

/-- Model of the backend primitive mpmath.cos. -/
noncomputable def mpmath_cos (z : ℂ) : ℂ :=
  Complex.cos z

/-- Model of the backend primitive mpmath.sec, the complex secant, the
reciprocal of the cosine. -/
noncomputable def mpmath_sec (z : ℂ) : ℂ :=
  (Complex.cos z)⁻¹

/-- The numeric callback of ArcCosh as written in the source: it invokes
the backend primitive mpmath.acoth — not mpmath.acosh. -/
noncomputable def ArcCosh.eval (z : ℂ) : ℂ :=
  mpmath_acoth z

/-- The numeric callback of Cos: it invokes mpmath.cos. -/
noncomputable def Cos.eval (z : ℂ) : ℂ :=
  mpmath_cos z

/-- The numeric callback of Sec: it invokes mpmath.sec. -/
noncomputable def Sec.eval (z : ℂ) : ℂ :=
  mpmath_sec z

/-- The value denoted by the template of the ArcCosh special-value rule,
I / 2 Pi: the purely imaginary number i * pi / 2. -/
noncomputable def ArcCosh.ruleValueAtZero : ℂ :=
  Complex.I * (Real.pi / 2 : ℝ)

/-- Claim C1: the special-value rule of ArcCosh at the inexact zero
yields I / 2 Pi, whose imaginary part is pi / 2, but the numeric
callback of ArcCosh invokes the backend primitive mpmath.acoth, not
mpmath.acosh.  For every real argument x with 0 < x < 1 — in particular
for arguments approaching 0 from the right — the value of the callback
has imaginary part -(pi / 2), so the callback does not converge to the
value of the rule and never equals it on that interval: the code
contradicts the stated invariant (and its own sympy_name acosh and its
own derivative rule, which are those of the inverse hyperbolic cosine). -/
theorem C1_ArcCosh_callback_wrong_branch (x : ℝ) (h0 : 0 < x) (h1 : x < 1) :
    (ArcCosh.eval (x : ℂ)).im = -(Real.pi / 2) ∧
    ArcCosh.ruleValueAtZero.im = Real.pi / 2 ∧
    ArcCosh.eval (x : ℂ) ≠ ArcCosh.ruleValueAtZero := by
  have hinv : (1:ℝ) < x⁻¹ := (one_lt_inv₀ h0).2 h1
  have hy0 : (0:ℝ) ≤ 1 + x⁻¹ := by positivity
  have hy1 : (1:ℝ) - x⁻¹ < 0 := by linarith
  have a1 : (1 + (x:ℂ)⁻¹).arg = 0 := by
    have e1 : (1:ℂ) + (x:ℂ)⁻¹ = ((1 + x⁻¹ : ℝ) : ℂ) := by push_cast; ring
    rw [e1]
    exact Complex.arg_ofReal_of_nonneg hy0
  have a2 : (1 - (x:ℂ)⁻¹).arg = Real.pi := by
    have e2 : (1:ℂ) - (x:ℂ)⁻¹ = ((1 - x⁻¹ : ℝ) : ℂ) := by push_cast; ring
    rw [e2]
    exact Complex.arg_ofReal_of_neg hy1
  have him : (ArcCosh.eval (x : ℂ)).im = -(Real.pi / 2) := by
    simp only [ArcCosh.eval, mpmath_acoth, mpmath_atanh]
    rw [Complex.div_im, Complex.sub_im, Complex.sub_re, Complex.log_im,
      Complex.log_im, a1, a2]
    norm_num [Complex.normSq]
    ring
  have hrule : ArcCosh.ruleValueAtZero.im = Real.pi / 2 := by
    simp [ArcCosh.ruleValueAtZero]
  refine ⟨him, hrule, fun heq => ?_⟩
  have hc := congrArg Complex.im heq
  rw [him, hrule] at hc
  have hpi := Real.pi_pos
  linarith

/-- Witness for C1 at the concrete argument x = 1/2. -/
theorem C1_ArcCosh_callback_wrong_branch_witness :
    (0:ℝ) < 1/2 ∧ (1/2:ℝ) < 1 ∧
    (ArcCosh.eval ((1/2:ℝ) : ℂ)).im = -(Real.pi / 2) :=
  ⟨by norm_num, by norm_num,
    (C1_ArcCosh_callback_wrong_branch (1/2) (by norm_num) (by norm_num)).1⟩

/-- Claim C2: Tan at the exact argument Pi/2 (the product of the exact
rational 1/2 and the symbol Pi), Csc at the exact integer 0, Cot at the
exact integer 0 and Coth at the exact integer 0 each reduce via a
rule-table match to the special value ComplexInfinity. -/
theorem C2_poles_reduce_to_ComplexInfinity :
    applyRules Tan.rules
      (.expr (.sym "Tan") [.expr (.sym "Times") [.rat 1 2, .sym "Pi"]])
      = some (.sym "ComplexInfinity") ∧
    applyRules Csc.rules (.expr (.sym "Csc") [.int 0])
      = some (.sym "ComplexInfinity") ∧
    applyRules Cot.rules (.expr (.sym "Cot") [.int 0])
      = some (.sym "ComplexInfinity") ∧
    applyRules Coth.rules (.expr (.sym "Coth") [.int 0])
      = some (.sym "ComplexInfinity") :=
  ⟨rfl, rfl, rfl, rfl⟩

/-- Claim C3: the three singularity outcomes are never conflated.
ArcSech at the exact integer 0 reduces to Infinity, Log of the inexact
zero reduces to Indeterminate, Log of the exact integer 0 reduces to the
directed negative infinity DirectedInfinity[-1], and the three results
— and ComplexInfinity — are pairwise distinct expressions. -/
theorem C3_singularity_outcomes_distinct :
    applyRules ArcSech.rules (.expr (.sym "ArcSech") [.int 0])
      = some (.sym "Infinity") ∧
    applyRules Log.rules (.expr (.sym "Log") [.real 0])
      = some (.sym "Indeterminate") ∧
    applyRules Log.rules (.expr (.sym "Log") [.int 0])
      = some (.expr (.sym "DirectedInfinity") [.int (-1)]) ∧
    (Expr.sym "Infinity") ≠ (Expr.sym "ComplexInfinity") ∧
    (Expr.sym "Infinity") ≠ (Expr.sym "Indeterminate") ∧
    (Expr.sym "Infinity") ≠ (Expr.expr (.sym "DirectedInfinity") [.int (-1)]) ∧
    (Expr.sym "Indeterminate") ≠ (Expr.expr (.sym "DirectedInfinity") [.int (-1)]) :=
  ⟨rfl, rfl, rfl, by simp, by simp, by simp, by simp⟩

/-- Counterexample to claim C4: at k = 3 the expression Tan[3/2 * Pi],
an odd multiple of Pi/2, matches no rule of the Tan table at all — in
particular it does not reduce to ComplexInfinity. -/
theorem C4_counterexample_three_halves_pi :
    applyRules Tan.rules
      (.expr (.sym "Tan") [.expr (.sym "Times") [.rat 3 2, .sym "Pi"]]) = none :=
  rfl

/-- Claim C4 as amended: for an odd integer k, the rule table of Tan
reduces Tan[k/2 * Pi] to ComplexInfinity only at the single argument
Pi/2 (k = 1); for every other odd k no rule matches and the expression
is left unevaluated. -/
theorem C4_amended_tan_rule_only_at_half_pi (k : ℤ) (hk : Odd k) :
    applyRules Tan.rules
      (.expr (.sym "Tan") [.expr (.sym "Times") [.rat k 2, .sym "Pi"]])
      = if k = 1 then some (.sym "ComplexInfinity") else none := by
  rcases eq_or_ne k 1 with h | h
  · subst h; rfl
  · have h1 : ¬((1:ℤ) = k) := fun e => h e.symm
    simp [applyRules, Tan.rules, matchPat, derivPat, h, h1]

/-- Witness for the amended C4 at the concrete odd integer k = 3. -/
theorem C4_amended_tan_rule_only_at_half_pi_witness :
    Odd (3:ℤ) ∧
    applyRules Tan.rules
      (.expr (.sym "Tan") [.expr (.sym "Times") [.rat 3 2, .sym "Pi"]]) = none :=
  ⟨⟨1, by norm_num⟩,
    (C4_amended_tan_rule_only_at_half_pi 3 ⟨1, by norm_num⟩).trans
      (if_neg (by norm_num))⟩

/-- Counterexample to claim C5: the rule table of Sinh has no rule
matching Sinh[0], so the exact special input 0 of Sinh is not handled by
a hard-coded rule of its rule table. -/
theorem C5_counterexample_sinh_zero_no_rule :
    applyRules Sinh.rules (.expr (.sym "Sinh") [.int 0]) = none :=
  rfl

/-- Claim C5 as amended: the rule tables of Sinh, Cosh, Tanh and ArcTanh
contain only derivative rules, so none of their exact special inputs
(0 for the three hyperbolic functions, 0 and 1 for ArcTanh) is handled
by a hard-coded rule there; hard-coded exact-value rules do exist for
other functions, for example Sin, Cos, Tan and Sec at 0. -/
theorem C5_amended_hyperbolic_tables_lack_special_rules :
    applyRules Sinh.rules (.expr (.sym "Sinh") [.int 0]) = none ∧
    applyRules Cosh.rules (.expr (.sym "Cosh") [.int 0]) = none ∧
    applyRules Tanh.rules (.expr (.sym "Tanh") [.int 0]) = none ∧
    applyRules ArcTanh.rules (.expr (.sym "ArcTanh") [.int 0]) = none ∧
    applyRules ArcTanh.rules (.expr (.sym "ArcTanh") [.int 1]) = none ∧
    Sinh.rules = [(derivPat "Sinh", .tfun (.tapp1 (.tsym "Cosh") .tslot))] ∧
    applyRules Sin.rules (.expr (.sym "Sin") [.int 0]) = some (.int 0) ∧
    applyRules Cos.rules (.expr (.sym "Cos") [.int 0]) = some (.int 1) ∧
    applyRules Tan.rules (.expr (.sym "Tan") [.int 0]) = some (.int 0) ∧
    applyRules Sec.rules (.expr (.sym "Sec") [.int 0]) = some (.int 1) :=
  ⟨rfl, rfl, rfl, rfl, rfl, rfl, rfl, rfl, rfl, rfl⟩

/-- Claim C6: Sin of the product of the exact integer 3 and the symbol
Pi reduces via the rule table to the exact integer 0; the literal rule
Sin[Pi] does not match the product, while the integer-multiple-of-Pi
rule Sin[n_Integer * Pi] (the second entry of the table) matches it,
binding n to the exact integer 3. -/
theorem C6_sin_three_pi_exact_zero :
    applyRules Sin.rules
      (.expr (.sym "Sin") [.expr (.sym "Times") [.int 3, .sym "Pi"]])
      = some (.int 0) ∧
    matchPat (Sin.rules.get ⟨0, by decide⟩).1
      (.expr (.sym "Sin") [.expr (.sym "Times") [.int 3, .sym "Pi"]]) = none ∧
    matchPat (Sin.rules.get ⟨1, by decide⟩).1
      (.expr (.sym "Sin") [.expr (.sym "Times") [.int 3, .sym "Pi"]])
      = some [("n", Expr.int 3)] :=
  ⟨rfl, rfl, rfl⟩

/-- Claim C7: cross-path agreement of Sec.  On the symbolic path, the
bridge of Sec turns Sec[1] into the reciprocal power of Cos at 1; on the
numeric path, the dedicated backend secant primitive invoked by the
callback of Sec agrees at 1 with the reciprocal of the backend cosine
invoked by the callback of Cos (the backend primitives are modelled as
the exact complex functions they approximate, which abstracts the
rounding tolerance away). -/
theorem C7_sec_cross_path_agreement :
    Sec.to_sympy (.expr (.sym "Sec") [.int 1])
      = some (.expr (.sym "Power") [.expr (.sym "Cos") [.int 1], .int (-1)]) ∧
    Sec.eval 1 = (Cos.eval 1)⁻¹ :=
  ⟨rfl, rfl⟩

/-- Claim C8: every symbolic bridge (Sec, Csc, Sech, Csch, ArcSec,
ArcCsc, ArcSech, ArcCsch) declines — returns no result — for any call
whose argument list does not have exactly one element, and produces its
bridging expression exactly for single-argument calls. -/
theorem C8_bridges_unary_only (h : Expr) (args : List Expr) :
    (args.length ≠ 1 →
      Sec.to_sympy (.expr h args) = none ∧
      Csc.to_sympy (.expr h args) = none ∧
      Sech.to_sympy (.expr h args) = none ∧
      Csch.to_sympy (.expr h args) = none ∧
      ArcSec.to_sympy (.expr h args) = none ∧
      ArcCsc.to_sympy (.expr h args) = none ∧
      ArcSech.to_sympy (.expr h args) = none ∧
      ArcCsch.to_sympy (.expr h args) = none) ∧
    (∀ a, args = [a] →
      Sec.to_sympy (.expr h args)
        = some (.expr (.sym "Power") [.expr (.sym "Cos") [a], .int (-1)]) ∧
      Csc.to_sympy (.expr h args)
        = some (.expr (.sym "Power") [.expr (.sym "Sin") [a], .int (-1)]) ∧
      Sech.to_sympy (.expr h args)
        = some (.expr (.sym "Power") [.expr (.sym "Cosh") [a], .int (-1)]) ∧
      Csch.to_sympy (.expr h args)
        = some (.expr (.sym "Power") [.expr (.sym "Sinh") [a], .int (-1)]) ∧
      ArcSec.to_sympy (.expr h args)
        = some (.expr (.sym "ArcCos") [.expr (.sym "Power") [a, .int (-1)]]) ∧
      ArcCsc.to_sympy (.expr h args)
        = some (.expr (.sym "ArcSin") [.expr (.sym "Power") [a, .int (-1)]]) ∧
      ArcSech.to_sympy (.expr h args)
        = some (.expr (.sym "ArcCosh") [.expr (.sym "Power") [a, .int (-1)]]) ∧
      ArcCsch.to_sympy (.expr h args)
        = some (.expr (.sym "ArcSinh") [.expr (.sym "Power") [a, .int (-1)]])) := by
  constructor
  · intro hne
    match args, hne with
    | [], _ => exact ⟨rfl, rfl, rfl, rfl, rfl, rfl, rfl, rfl⟩
    | [a], hne => exact absurd rfl hne
    | a :: b :: rest, _ => exact ⟨rfl, rfl, rfl, rfl, rfl, rfl, rfl, rfl⟩
  · rintro a rfl
    exact ⟨rfl, rfl, rfl, rfl, rfl, rfl, rfl, rfl⟩

/-- Witness for C8 at the concrete two-argument and zero-argument calls. -/
theorem C8_bridges_unary_only_witness :
    Sec.to_sympy (.expr (.sym "Sec") [.int 1, .int 2]) = none ∧
    ArcCsch.to_sympy (.expr (.sym "ArcCsch") []) = none :=
  ⟨((C8_bridges_unary_only (.sym "Sec") [.int 1, .int 2]).1 (by decide)).1,
    (((C8_bridges_unary_only (.sym "ArcCsch") []).1
      (by decide)).2).2.2.2.2.2.2⟩

/-- Claim C9: when get_precision yields no value for the precision
argument, the handlers of N[Pi, prec] and N[E, prec] produce no result,
whatever the backend values are, so the call is surfaced unevaluated
and never computed at a clamped or default precision. -/
theorem C9_invalid_precision_unevaluated
    (get_precision : Expr → Option Nat) (backendPi backendE : Nat → Expr)
    (prec : Expr) (h : get_precision prec = none) :
    Pi.apply_N get_precision backendPi prec = none ∧
    E.apply_N get_precision backendE prec = none := by
  constructor <;> simp [Pi.apply_N, E.apply_N, h]

/-- Witness for C9 at a concrete get_precision that yields no value. -/
theorem C9_invalid_precision_unevaluated_witness :
    Pi.apply_N (fun _ => none) (fun _ => Expr.int 0) (Expr.sym "x") = none ∧
    E.apply_N (fun _ => none) (fun _ => Expr.int 0) (Expr.sym "x") = none :=
  C9_invalid_precision_unevaluated (fun _ => none) (fun _ => .int 0)
    (fun _ => .int 0) (.sym "x") rfl

/-- Claim C10: ArcSech of the inexact zero reduces via its rule table to
Indeterminate, a different special value from the Infinity produced for
ArcSech of the exact integer 0, and the two zero atoms themselves are
distinct expressions. -/
theorem C10_arcsech_exact_vs_inexact_zero :
    applyRules ArcSech.rules (.expr (.sym "ArcSech") [.real 0])
      = some (.sym "Indeterminate") ∧
    applyRules ArcSech.rules (.expr (.sym "ArcSech") [.int 0])
      = some (.sym "Infinity") ∧
    (Expr.sym "Indeterminate") ≠ (Expr.sym "Infinity") ∧
    (Expr.int 0) ≠ (Expr.real 0) :=
  ⟨rfl, rfl, by simp, by simp⟩

end ExpTrig
